import Mathlib

/-
Verification of the skydo-fira cost-comparison and upload workflow.

The source is a small React application: an Index page (handleFileUpload,
the comparison computation and display gating) and a FileUpload component
plus the firaApi service (file validation, canAnalyze gating, response
validation).  Monetary arithmetic is modelled over the rationals; the
JavaScript idiom Number(x.toFixed(n)) is modelled by rounding to n decimal
places, nearest value with ties toward the larger value, which is the
rounding ECMAScript prescribes for toFixed.
-/

namespace SkydoFira

/-- Rounding of Number(x.toFixed(2)): nearest multiple of 1/100, ties toward
the larger value (ECMAScript toFixed picks the larger candidate on a tie). -/
def round2 (q : ℚ) : ℚ := (⌊q * 100 + 1/2⌋ : ℚ) / 100

/-- Rounding of Number(x.toFixed(4)): nearest multiple of 1/10000, ties toward
the larger value. -/
def round4 (q : ℚ) : ℚ := (⌊q * 10000 + 1/2⌋ : ℚ) / 10000

/-- The FiraDataDto interface of the firaApi service. -/
structure FiraDataDto where
  id : ℤ
  amount : ℚ
  currency : String
  inrAmount : ℚ
  fxRateSkydo : ℚ
  calculatedExchangeRate : ℚ
  transactionSkydoFee : ℚ
  skydoFiraFee : ℚ
  skydoWireFee : ℚ
  platformFiraFee : ℚ
  platformWireFee : ℚ
  platformTransactionFee : ℚ
  finalInrAmount : ℚ
  finalInrAmountSkydo : ℚ
  valueDate : String
  deriving Repr, DecidableEq

/-- One entry of a provider's charges list.  The fee entries of the source
carry no isPercentage field, modelled here as none. -/
structure Charge where
  type : String
  amount : ℚ
  isPercentage : Option Bool := none
  deriving Repr, DecidableEq

/-- One provider breakdown of the transformed comparison record. -/
structure ProviderBreakdown where
  name : String
  paymentAmount : ℚ
  charges : List Charge
  totalOnTransaction : ℚ
  effectiveCost : ℚ
  deriving Repr, DecidableEq

/-- The savings entry of the transformed comparison record. -/
structure SavingsEntry where
  amount : ℚ
  percentage : ℚ
  deriving Repr, DecidableEq

/-- The transformedData record built by handleFileUpload on success. -/
structure TransformedData where
  currentProvider : ProviderBreakdown
  skydo : ProviderBreakdown
  savings : SavingsEntry
  transactionAmount : ℚ
  originalAmount : ℚ
  currency : String
  deriving Repr, DecidableEq

/-- The comparison computation of handleFileUpload (Index page, lines 38-115):
effective costs, the two provider breakdowns, the savings entry and the
top-level amounts, transcribed field by field from the source. -/
def transformFiraData (d : FiraDataDto) : TransformedData :=
  let currentProviderEffectiveCost :=
    round2 ((d.inrAmount - d.finalInrAmount) / d.inrAmount * 100)
  let skydoOriginalInrAmount := d.amount * d.fxRateSkydo
  let skydoEffectiveCost :=
    round2 ((skydoOriginalInrAmount - d.finalInrAmountSkydo) / skydoOriginalInrAmount * 100)
  { currentProvider :=
      { name := "Current Provider"
        paymentAmount := round2 d.inrAmount
        charges :=
          [ { type := "FX Rate"
              amount := round4 d.calculatedExchangeRate
              isPercentage := some false }
          , { type := "Wire Fee (INR)", amount := round2 d.platformWireFee }
          , { type := "FIRA Fee (INR)", amount := round2 d.platformFiraFee }
          , { type := "Transaction Fee (INR)", amount := round2 d.platformTransactionFee } ]
        totalOnTransaction :=
          round2 (d.platformWireFee + d.platformFiraFee + d.platformTransactionFee)
        effectiveCost := currentProviderEffectiveCost }
    skydo :=
      { name := "Skydo"
        paymentAmount := round2 skydoOriginalInrAmount
        charges :=
          [ { type := "FX Rate"
              amount := round4 d.fxRateSkydo
              isPercentage := some false }
          , { type := "Wire Fee (INR)", amount := round2 d.skydoWireFee }
          , { type := "FIRA Fee (INR)", amount := round2 d.skydoFiraFee }
          , { type := "Transaction Fee (INR)", amount := round2 d.transactionSkydoFee } ]
        totalOnTransaction :=
          round2 (d.skydoWireFee + d.skydoFiraFee + d.transactionSkydoFee)
        effectiveCost := skydoEffectiveCost }
    savings :=
      { amount := round2 (d.finalInrAmountSkydo - d.finalInrAmount)
        percentage :=
          round2 ((d.finalInrAmountSkydo - d.finalInrAmount) / d.finalInrAmount * 100) }
    transactionAmount := round2 d.inrAmount
    originalAmount := round2 d.amount
    currency := d.currency }

/-- The example scenario of the specification: amount 1000 USD, inrAmount
83000, fxRateSkydo 84.5, calculatedExchangeRate 83.0, platform fees
500 / 200 / 100, finalInrAmount 82200, finalInrAmountSkydo 83700.  The
alternative-provider fees are not constrained by the scenario and are set
to zero. -/
def exampleDto : FiraDataDto :=
  { id := 1
    amount := 1000
    currency := "USD"
    inrAmount := 83000
    fxRateSkydo := 169/2
    calculatedExchangeRate := 83
    transactionSkydoFee := 0
    skydoFiraFee := 0
    skydoWireFee := 0
    platformFiraFee := 200
    platformWireFee := 500
    platformTransactionFee := 100
    finalInrAmount := 82200
    finalInrAmountSkydo := 83700
    valueDate := "2024-01-01" }

/-- A payload whose three current-provider fees are each 0.004 INR: each fee
rounds to 0.00 on its own, while their raw sum 0.012 rounds to 0.01. -/
def tinyFeesDto : FiraDataDto :=
  { exampleDto with
    platformWireFee := 1/250
    platformFiraFee := 1/250
    platformTransactionFee := 1/250 }

/-- A payload where the alternative provider beats the current one by only
0.004 INR, under half a cent. -/
def tinyDiffDto : FiraDataDto :=
  { exampleDto with finalInrAmountSkydo := 82200 + 1/250 }

/-- A payload with a small final amount (10 INR) and a 0.004 INR difference,
separating the rounded-difference and raw-difference percentage formulas. -/
def smallBaseDto : FiraDataDto :=
  { exampleDto with
    finalInrAmount := 10
    finalInrAmountSkydo := 10 + 1/250 }

/-- Lemma: rounding maps zero to zero. -/
theorem round2_zero : round2 0 = 0 := by norm_num [round2]

/-- Lemma: rounding a nonnegative value stays nonnegative. -/
theorem round2_nonneg (q : ℚ) (h : 0 ≤ q) : 0 ≤ round2 q := by
  unfold round2
  have h2 : (0:ℤ) ≤ ⌊q * 100 + 1/2⌋ := Int.floor_nonneg.mpr (by linarith)
  have h3 : (0:ℚ) ≤ (⌊q * 100 + 1/2⌋ : ℚ) := by exact_mod_cast h2
  exact div_nonneg h3 (by norm_num)

/-- Lemma: rounding a nonpositive value stays nonpositive. -/
theorem round2_nonpos (q : ℚ) (h : q ≤ 0) : round2 q ≤ 0 := by
  unfold round2
  have h2 : ⌊q * 100 + 1/2⌋ < 1 := Int.floor_lt.mpr (by push_cast; linarith)
  have h3 : (⌊q * 100 + 1/2⌋ : ℚ) ≤ 0 := by exact_mod_cast Int.lt_add_one_iff.mp h2
  exact div_nonpos_of_nonpos_of_nonneg h3 (by norm_num)

/-- Lemma: a value of at least half a cent rounds to a positive value. -/
theorem round2_pos (q : ℚ) (h : 1/200 ≤ q) : 0 < round2 q := by
  unfold round2
  have h2 : (1:ℤ) ≤ ⌊q * 100 + 1/2⌋ := Int.le_floor.mpr (by push_cast; linarith)
  have h3 : (1:ℚ) ≤ (⌊q * 100 + 1/2⌋ : ℚ) := by exact_mod_cast h2
  exact div_pos (by linarith) (by norm_num)

/-- Lemma: a value below negative half a cent rounds to a negative value. -/
theorem round2_neg (q : ℚ) (h : q < -(1/200)) : round2 q < 0 := by
  unfold round2
  have h2 : ⌊q * 100 + 1/2⌋ < 0 := Int.floor_lt.mpr (by push_cast; linarith)
  have h3 : (⌊q * 100 + 1/2⌋ : ℚ) < 0 := by exact_mod_cast h2
  exact div_neg_of_neg_of_pos h3 (by norm_num)

/-- C1 counterexample: with the three current-provider fees each 0.004 INR,
the record's totalOnTransaction is 0.01 while the rounded sum of the three
already-rounded fee charges is 0.00 — the code sums the raw fees, not the
rounded ones. -/
theorem totalOnTransaction_not_sum_of_rounded_fees :
    (transformFiraData tinyFeesDto).currentProvider.totalOnTransaction ≠
      round2 (round2 tinyFeesDto.platformWireFee + round2 tinyFeesDto.platformFiraFee
        + round2 tinyFeesDto.platformTransactionFee) := by
  norm_num [transformFiraData, tinyFeesDto, exampleDto, round2]

/-- C1 (amended): for every payload, each provider's totalOnTransaction equals
the two-decimal rounding of the sum of the three raw (unrounded) fee
charges. -/
theorem totalOnTransaction_eq_round2_raw_fee_sum (d : FiraDataDto) :
    (transformFiraData d).currentProvider.totalOnTransaction
        = round2 (d.platformWireFee + d.platformFiraFee + d.platformTransactionFee)
    ∧ (transformFiraData d).skydo.totalOnTransaction
        = round2 (d.skydoWireFee + d.skydoFiraFee + d.transactionSkydoFee) :=
  ⟨rfl, rfl⟩

/-- C2 counterexample: on the specification's example scenario the savings
percentage is 1.82 (1500 / 82200 * 100 = 1.8248..., which rounds down), not
the 1.83 the specification states. -/
theorem example_scenario_savings_percentage_not_183 :
    (transformFiraData exampleDto).savings.percentage ≠ 183/100 := by
  norm_num [transformFiraData, exampleDto, round2]

/-- C2 (amended): the example scenario produces current-provider
totalOnTransaction 800.00 and effectiveCost 0.96, alternative-provider
payment amount 84500 and effectiveCost 0.95, savings amount 1500.00 and
savings percentage 1.82. -/
theorem example_scenario_values :
    (transformFiraData exampleDto).currentProvider.totalOnTransaction = 800
    ∧ (transformFiraData exampleDto).currentProvider.effectiveCost = 96/100
    ∧ (transformFiraData exampleDto).skydo.paymentAmount = 84500
    ∧ (transformFiraData exampleDto).skydo.effectiveCost = 95/100
    ∧ (transformFiraData exampleDto).savings.amount = 1500
    ∧ (transformFiraData exampleDto).savings.percentage = 182/100 := by
  refine ⟨?_, ?_, ?_, ?_, ?_, ?_⟩ <;> norm_num [transformFiraData, exampleDto, round2]

/-- C3 counterexample: with finalInrAmount 10 and finalInrAmountSkydo 10.004
the record's savings percentage is 0.04, while computing it from the
already-rounded savings amount (0.00) would give 0.00 — the code divides the
raw difference, not the rounded amount. -/
theorem savings_percentage_not_from_rounded_amount :
    (transformFiraData smallBaseDto).savings.percentage ≠
      round2 ((transformFiraData smallBaseDto).savings.amount
        / smallBaseDto.finalInrAmount * 100) := by
  norm_num [transformFiraData, smallBaseDto, exampleDto, round2]

/-- C3 (amended): for every payload, the savings amount is the two-decimal
rounding of the raw difference finalInrAmountSkydo - finalInrAmount, and the
savings percentage is the two-decimal rounding of that same raw (unrounded)
difference divided by finalInrAmount times 100. -/
theorem savings_amount_and_percentage_formulas (d : FiraDataDto) :
    (transformFiraData d).savings.amount
        = round2 (d.finalInrAmountSkydo - d.finalInrAmount)
    ∧ (transformFiraData d).savings.percentage
        = round2 ((d.finalInrAmountSkydo - d.finalInrAmount) / d.finalInrAmount * 100) :=
  ⟨rfl, rfl⟩

/-- C5 counterexample: with finalInrAmountSkydo exceeding finalInrAmount by
0.004 INR the alternative is strictly cheaper, yet the savings amount rounds
to exactly 0 rather than staying positive. -/
theorem savings_sign_collapses_below_half_cent :
    tinyDiffDto.finalInrAmount < tinyDiffDto.finalInrAmountSkydo
    ∧ ¬ (0 < (transformFiraData tinyDiffDto).savings.amount) := by
  constructor
  · norm_num [tinyDiffDto, exampleDto]
  · norm_num [transformFiraData, tinyDiffDto, exampleDto, round2]

/-- C5 (amended): the savings amount never flips sign — a positive difference
yields a nonnegative amount, a negative difference a nonpositive one, a zero
difference exactly zero — and the sign is strictly preserved whenever the
difference is at least half a cent in magnitude (above 0.005 positive, below
-0.005 negative); differences under half a cent may round to 0. -/
theorem savings_amount_sign (d : FiraDataDto) :
    (1/200 ≤ d.finalInrAmountSkydo - d.finalInrAmount →
      0 < (transformFiraData d).savings.amount)
    ∧ (d.finalInrAmountSkydo - d.finalInrAmount < -(1/200) →
      (transformFiraData d).savings.amount < 0)
    ∧ (d.finalInrAmount < d.finalInrAmountSkydo →
      0 ≤ (transformFiraData d).savings.amount)
    ∧ (d.finalInrAmountSkydo < d.finalInrAmount →
      (transformFiraData d).savings.amount ≤ 0)
    ∧ (d.finalInrAmountSkydo = d.finalInrAmount →
      (transformFiraData d).savings.amount = 0) := by
  have hs : (transformFiraData d).savings.amount
      = round2 (d.finalInrAmountSkydo - d.finalInrAmount) := rfl
  refine ⟨fun h => ?_, fun h => ?_, fun h => ?_, fun h => ?_, fun h => ?_⟩ <;> rw [hs]
  · exact round2_pos _ h
  · exact round2_neg _ h
  · exact round2_nonneg _ (by linarith)
  · exact round2_nonpos _ (by linarith)
  · rw [h, sub_self]; exact round2_zero

/-- C5 witness: the amended sign theorem applied to the example scenario,
where the difference 1500 is far above half a cent. -/
theorem savings_amount_sign_witness :
    (1/200 : ℚ) ≤ exampleDto.finalInrAmountSkydo - exampleDto.finalInrAmount
    ∧ 0 < (transformFiraData exampleDto).savings.amount :=
  ⟨by norm_num [exampleDto], (savings_amount_sign exampleDto).1 (by norm_num [exampleDto])⟩

/-- A file as the coordinator sees it: name, size and declared content type. -/
structure FileRec where
  name : String
  size : ℕ
  type : String
  deriving Repr, DecidableEq

/-- The PaymentMethod enum of the firaApi service. -/
inductive PaymentMethod where
  | BANK
  | PAYONEER
  | WISE
  | PAYPAL
  | OTHERS
  deriving Repr, DecidableEq

/-- The local state of the FileUpload component: uploadedFile, previewUrl,
acceptedTerms and paymentMethod; the empty-string initial selection of the
source is modelled as none. -/
structure FileUploadState where
  uploadedFile : Option FileRec
  previewUrl : Option String
  acceptedTerms : Bool
  paymentMethod : Option PaymentMethod
  deriving Repr, DecidableEq

/-- The validTypes list of handleFile in the FileUpload component. -/
def validTypes : List String :=
  ["application/pdf", "image/png", "image/jpeg", "image/jpg"]

/-- Model of URL.createObjectURL: an opaque handle derived from the file. -/
def createObjectURL (f : FileRec) : String := "blob:" ++ f.name

/-- The handleFile handler of the FileUpload component: a file whose declared
type is not in validTypes is rejected with a destructive toast and the state
is left unchanged; otherwise the file is stored and the preview URL is
rebuilt (images only).  Returns the new state and the error toast title, if
any. -/
def handleFile (s : FileUploadState) (f : FileRec) : FileUploadState × Option String :=
  if f.type ∈ validTypes then
    ({ s with
        uploadedFile := some f
        previewUrl :=
          if f.type.startsWith "image/" then some (createObjectURL f) else none },
      none)
  else (s, some "Invalid file type")

/-- The canAnalyze condition of the FileUpload component: file present, terms
accepted and a payment method selected. -/
def canAnalyze (s : FileUploadState) : Bool :=
  s.uploadedFile.isSome && s.acceptedTerms && s.paymentMethod.isSome

/-- The requiredFields list of the response validation in
uploadAndProcessFira. -/
def requiredFields : List String :=
  [ "amount", "currency", "inrAmount", "fxRateSkydo"
  , "calculatedExchangeRate", "finalInrAmount", "finalInrAmountSkydo" ]

/-- The loosely-typed firaData object as received over the wire: every field
the validator inspects may be absent or undefined, modelled as none. -/
structure RawFiraData where
  amount : Option ℚ
  currency : Option String
  inrAmount : Option ℚ
  fxRateSkydo : Option ℚ
  calculatedExchangeRate : Option ℚ
  finalInrAmount : Option ℚ
  finalInrAmountSkydo : Option ℚ
  deriving Repr, DecidableEq

/-- Field lookup on the raw payload, the membership test (field in firaData
and firaData[field] not undefined) of uploadAndProcessFira. -/
def hasField (raw : RawFiraData) (field : String) : Bool :=
  match field with
  | "amount" => raw.amount.isSome
  | "currency" => raw.currency.isSome
  | "inrAmount" => raw.inrAmount.isSome
  | "fxRateSkydo" => raw.fxRateSkydo.isSome
  | "calculatedExchangeRate" => raw.calculatedExchangeRate.isSome
  | "finalInrAmount" => raw.finalInrAmount.isSome
  | "finalInrAmountSkydo" => raw.finalInrAmountSkydo.isSome
  | _ => false

/-- The missingFields computation of uploadAndProcessFira: the required
fields that are absent from the payload.  The response is rejected exactly
when this list is non-empty. -/
def missingFields (raw : RawFiraData) : List String :=
  requiredFields.filter (fun field => ! hasField raw field)

/-- A success payload carrying every required field, with inrAmount zero. -/
def zeroInrPayload : RawFiraData :=
  { amount := some 1000
    currency := some "USD"
    inrAmount := some 0
    fxRateSkydo := some (169/2)
    calculatedExchangeRate := some 83
    finalInrAmount := some 82200
    finalInrAmountSkydo := some 83700 }

/-- C4: the response validation of uploadAndProcessFira accepts a payload
whose inrAmount is zero — its missingFields check only tests presence, never
that a consumed divisor is nonzero or finite, so the comparison computation
is invoked on the zero divisor instead of the claimed validation failure. -/
theorem zero_inrAmount_passes_validation :
    missingFields zeroInrPayload = [] ∧ zeroInrPayload.inrAmount = some 0 :=
  ⟨rfl, rfl⟩

/-- C6: canAnalyze holds exactly when a file is selected, terms are accepted
and a payment method is chosen; it fails whenever any of the three is
absent or false. -/
theorem canAnalyze_iff (s : FileUploadState) :
    canAnalyze s = true ↔
      s.uploadedFile.isSome = true
      ∧ s.acceptedTerms = true
      ∧ s.paymentMethod.isSome = true := by
  simp [canAnalyze, Bool.and_eq_true, and_assoc]

/-- C7: handleFile leaves the whole component state unchanged and reports an
invalid-file-type error when the declared content type is outside
validTypes, and stores the file (clearing the error) when it is inside. -/
theorem handleFile_validates (s : FileUploadState) (f : FileRec) :
    (f.type ∉ validTypes →
      (handleFile s f).1 = s ∧ (handleFile s f).2 = some "Invalid file type")
    ∧ (f.type ∈ validTypes →
      (handleFile s f).1.uploadedFile = some f ∧ (handleFile s f).2 = none) := by
  constructor <;> intro h <;> simp [handleFile, h]

/-- The empty initial state of the FileUpload component. -/
def emptyUploadState : FileUploadState :=
  { uploadedFile := none, previewUrl := none, acceptedTerms := false, paymentMethod := none }

/-- A PDF file and a plain-text file used as concrete inputs. -/
def pdfFile : FileRec := { name := "fira.pdf", size := 2048, type := "application/pdf" }

/-- A file whose declared content type is not an accepted one. -/
def textFile : FileRec := { name := "fira.txt", size := 64, type := "text/plain" }

/-- C7 witness: a text file is rejected without touching the state and a PDF
file is accepted. -/
theorem handleFile_validates_witness :
    (textFile.type ∉ validTypes ∧ (handleFile emptyUploadState textFile).1 = emptyUploadState)
    ∧ (pdfFile.type ∈ validTypes
        ∧ (handleFile emptyUploadState pdfFile).1.uploadedFile = some pdfFile) :=
  ⟨⟨by decide, ((handleFile_validates emptyUploadState textFile).1 (by decide)).1⟩,
   ⟨by decide, ((handleFile_validates emptyUploadState pdfFile).2 (by decide)).1⟩⟩

/-- The FiraProcessingResult interface of the firaApi service. -/
structure FiraProcessingResult where
  success : Bool
  message : String
  firaData : Option FiraDataDto
  processingTimeMs : ℚ
  errors : List String
  deriving Repr, DecidableEq

/-- The error message built by the success-false branch of handleFileUpload:
the comma-joined errors list when non-empty, else the message field when
truthy, else the constant fallback text. -/
def failureMessage (r : FiraProcessingResult) : String :=
  if r.errors.length > 0 then String.intercalate ", " r.errors
  else if r.message = "" then "Failed to process FIRA document"
  else r.message

/-- The state owned by the Index page: uploadedFile, analysisData and
isAnalyzing. -/
structure IndexState where
  uploadedFile : Option FileRec
  analysisData : Option TransformedData
  isAnalyzing : Bool
  deriving Repr, DecidableEq

/-- The outcome of the awaited uploadAndProcessFira call: a parsed response,
or a thrown transport / parse / validation error carrying a message. -/
inductive UploadOutcome where
  | response (r : FiraProcessingResult)
  | transportError (msg : String)
  deriving Repr, DecidableEq

/-- The prefix of handleFileUpload that runs before the await: store the
file and raise the isAnalyzing flag. -/
def startUpload (s : IndexState) (file : FileRec) : IndexState :=
  { s with uploadedFile := some file, isAnalyzing := true }

/-- The remainder of handleFileUpload after the awaited call resolves,
including the catch and finally blocks: on a thrown error or a success-false
or missing-data response, the analysis data is untouched and a destructive
toast carries the message; on success the transformed record is stored.
In every branch the finally block clears isAnalyzing.  Returns the new state
and the error toast description, if any. -/
def finishUpload (s : IndexState) (outcome : UploadOutcome) : IndexState × Option String :=
  match outcome with
  | .transportError msg => ({ s with isAnalyzing := false }, some msg)
  | .response r =>
    if r.success then
      match r.firaData with
      | none => ({ s with isAnalyzing := false }, some "No data received from server")
      | some d =>
          ({ s with isAnalyzing := false, analysisData := some (transformFiraData d) }, none)
    else ({ s with isAnalyzing := false }, some (failureMessage r))

/-- The net effect of one complete run of handleFileUpload on the Index
state, from the initial setUploadedFile and setIsAnalyzing calls through the
resolution of the awaited upload. -/
def handleFileUpload (s : IndexState) (file : FileRec) (outcome : UploadOutcome) :
    IndexState × Option String :=
  finishUpload (startUpload s file) outcome

/-- The Index state before any upload. -/
def initialIndexState : IndexState :=
  { uploadedFile := none, analysisData := none, isAnalyzing := false }

/-- The specification's example failure response. -/
def exampleFailureResult : FiraProcessingResult :=
  { success := false
    message := ""
    firaData := none
    processingTimeMs := 0
    errors := ["Unable to read document"] }

/-- A failure response whose errors list holds a single empty string. -/
def emptyStringErrorsResult : FiraProcessingResult :=
  { success := false
    message := "upstream reason"
    firaData := none
    processingTimeMs := 0
    errors := [""] }

/-- C8 counterexample: a success-false response whose errors list is the
non-empty list containing one empty string is surfaced with the empty
message — a failure path whose displayed message is empty. -/
theorem failure_message_can_be_empty :
    emptyStringErrorsResult.success = false
    ∧ (handleFileUpload initialIndexState pdfFile
        (UploadOutcome.response emptyStringErrorsResult)).2 = some "" :=
  ⟨rfl, rfl⟩

/-- C8 (amended): every success-false response is surfaced with
failureMessage — the comma-joined errors list when errors is non-empty,
otherwise the message field when non-empty, otherwise the constant fallback
text — so the message is non-empty whenever errors is empty, but an errors
list of empty strings joins to an empty message; the example failure
response yields the message Unable to read document. -/
theorem failure_message_spec (s : IndexState) (f : FileRec) (r : FiraProcessingResult) :
    (r.success = false →
      (handleFileUpload s f (UploadOutcome.response r)).2 = some (failureMessage r))
    ∧ (r.errors ≠ [] → failureMessage r = String.intercalate ", " r.errors)
    ∧ (r.errors = [] ∧ r.message ≠ "" → failureMessage r = r.message)
    ∧ (r.errors = [] → failureMessage r ≠ "")
    ∧ (handleFileUpload s f (UploadOutcome.response exampleFailureResult)).2
        = some "Unable to read document" := by
  refine ⟨fun h => ?_, fun h => ?_, fun h => ?_, fun h => ?_, ?_⟩
  · simp [handleFileUpload, finishUpload, startUpload, h]
  · simp [failureMessage, List.length_pos.mpr h]
  · obtain ⟨h1, h2⟩ := h
    simp [failureMessage, h1, h2]
  · simp only [failureMessage, h, List.length_nil, gt_iff_lt, lt_self_iff_false, if_false]
    split
    · decide
    · assumption
  · rfl

/-- C8 witness: the spec theorem applied to the example failure response,
discharging the success-false hypothesis. -/
theorem failure_message_spec_witness :
    (handleFileUpload initialIndexState pdfFile
        (UploadOutcome.response exampleFailureResult)).2
      = some (failureMessage exampleFailureResult) :=
  (failure_message_spec initialIndexState pdfFile exampleFailureResult).1 rfl

/-- The render condition of the Index page for the FileUpload widget: no
analysis data displayed and no analysis in flight. -/
def showFileUpload (s : IndexState) : Bool :=
  s.analysisData.isNone && ! s.isAnalyzing

/-- An upload session: the Index state plus the number of network calls
currently in flight. -/
structure SessionState where
  ui : IndexState
  inFlight : ℕ
  deriving Repr, DecidableEq

/-- The user-visible events of the Index page: pressing Analyze in the
FileUpload widget (only rendered when showFileUpload holds), the resolution
of an in-flight upload, and clicking the always-rendered logo, which runs
handleBackToHome. -/
inductive Event where
  | submitClick (file : FileRec) (pm : PaymentMethod)
  | completeUpload (outcome : UploadOutcome)
  | logoClick
  deriving Repr, DecidableEq

/-- One step of the Index page: a submit click is only possible while the
FileUpload widget is rendered; a completion applies the rest of
handleFileUpload to the current state; the logo click resets all three
state fields unconditionally (it does not cancel an in-flight call). -/
def step (s : SessionState) (e : Event) : SessionState :=
  match e with
  | .submitClick file _pm =>
      if showFileUpload s.ui then
        { ui := startUpload s.ui file, inFlight := s.inFlight + 1 }
      else s
  | .completeUpload outcome =>
      if 0 < s.inFlight then
        { ui := (finishUpload s.ui outcome).1, inFlight := s.inFlight - 1 }
      else s
  | .logoClick => { ui := initialIndexState, inFlight := s.inFlight }

/-- The session before any event. -/
def initialSession : SessionState := { ui := initialIndexState, inFlight := 0 }

/-- The single-flight invariant: exactly one call is in flight while
isAnalyzing holds, none otherwise. -/
def flightInv (s : SessionState) : Prop :=
  s.inFlight = if s.ui.isAnalyzing then 1 else 0

/-- Lemma: every branch of finishUpload clears the isAnalyzing flag. -/
theorem finishUpload_isAnalyzing (s : IndexState) (o : UploadOutcome) :
    (finishUpload s o).1.isAnalyzing = false := by
  cases o with
  | transportError msg => rfl
  | response r =>
    by_cases hr : r.success = true
    · cases hd : r.firaData <;> simp [finishUpload, hr, hd]
    · simp [finishUpload, hr]

/-- C9 counterexample: submitting, then clicking the logo while the call is
still in flight, then submitting again leaves two uploads in flight — the
always-rendered logo reset re-enables the upload widget mid-flight, so the
at-most-one-in-flight invariant fails. -/
theorem double_inflight_via_logo_reset :
    (step (step (step initialSession (Event.submitClick pdfFile PaymentMethod.BANK))
        Event.logoClick)
      (Event.submitClick pdfFile PaymentMethod.BANK)).inFlight = 2 :=
  rfl

/-- C9 (amended): while isAnalyzing holds the upload widget is not rendered,
so a submit click has no effect and no duplicate network call is issued; the
single-flight invariant holds initially, bounds the in-flight count by one,
and is preserved by every submit or completion event — only the logo reset
can break it. -/
theorem submit_gating (s : SessionState) (f : FileRec) (pm : PaymentMethod) (e : Event) :
    (s.ui.isAnalyzing = true → step s (Event.submitClick f pm) = s)
    ∧ (flightInv s → s.inFlight ≤ 1)
    ∧ flightInv initialSession
    ∧ (flightInv s → e ≠ Event.logoClick → flightInv (step s e)) := by
  refine ⟨fun h => ?_, fun h => ?_, rfl, fun hinv hne => ?_⟩
  · simp [step, showFileUpload, h]
  · rw [h]; split <;> norm_num
  · cases e with
    | submitClick file pm2 =>
      by_cases hshow : showFileUpload s.ui = true
      · have hana : s.ui.isAnalyzing = false := by
          simp [showFileUpload, Bool.and_eq_true] at hshow
          exact hshow.2
        have h0 : s.inFlight = 0 := by rw [hinv, hana]; rfl
        simp [step, hshow, flightInv, startUpload, h0]
      · simp [step, hshow]; exact hinv
    | completeUpload outcome =>
      by_cases hpos : 0 < s.inFlight
      · have hana : s.ui.isAnalyzing = true := by
          by_contra hc
          rw [hinv, if_neg hc] at hpos
          exact absurd hpos (by norm_num)
        have h1 : s.inFlight = 1 := by rw [hinv, hana]; rfl
        simp [step, hpos, flightInv, finishUpload_isAnalyzing, h1]
      · simp [step, hpos]; exact hinv
    | logoClick => exact absurd rfl hne

/-- C9 witness: a submit click in an analyzing session has no effect. -/
theorem submit_gating_witness :
    step { ui := { uploadedFile := some pdfFile, analysisData := none, isAnalyzing := true },
           inFlight := 1 }
        (Event.submitClick pdfFile PaymentMethod.BANK)
      = { ui := { uploadedFile := some pdfFile, analysisData := none, isAnalyzing := true },
          inFlight := 1 } :=
  (submit_gating
    { ui := { uploadedFile := some pdfFile, analysisData := none, isAnalyzing := true },
      inFlight := 1 }
    pdfFile PaymentMethod.BANK Event.logoClick).1 rfl

/-- An upload outcome that is a failure path of handleFileUpload: a thrown
transport or parse error, a success-false response, or a success response
with no firaData. -/
def uploadFails (o : UploadOutcome) : Prop :=
  match o with
  | .transportError _ => True
  | .response r => r.success = false ∨ r.firaData = none

/-- C10: on every failure path of a submission, the stored comparison record
is exactly the one from before the upload — never overwritten or cleared —
and the isAnalyzing flag ends up false. -/
theorem failed_upload_preserves_analysisData (s : IndexState) (f : FileRec)
    (o : UploadOutcome) (h : uploadFails o) :
    (handleFileUpload s f o).1.analysisData = s.analysisData
    ∧ (handleFileUpload s f o).1.isAnalyzing = false := by
  cases o with
  | transportError msg => exact ⟨rfl, rfl⟩
  | response r =>
    rcases h with h | h
    · simp [handleFileUpload, finishUpload, startUpload, h]
    · by_cases hr : r.success = true
      · simp [handleFileUpload, finishUpload, startUpload, hr, h]
      · simp [handleFileUpload, finishUpload, startUpload, hr]

/-- C10 witness: a transport error leaves the analysis data of the initial
state untouched and clears the in-flight flag. -/
theorem failed_upload_preserves_analysisData_witness :
    uploadFails (UploadOutcome.transportError "Failed to upload FIRA file: Network error")
    ∧ ((handleFileUpload initialIndexState pdfFile
          (UploadOutcome.transportError "Failed to upload FIRA file: Network error")).1.analysisData
        = initialIndexState.analysisData
      ∧ (handleFileUpload initialIndexState pdfFile
          (UploadOutcome.transportError "Failed to upload FIRA file: Network error")).1.isAnalyzing
        = false) :=
  ⟨trivial,
    failed_upload_preserves_analysisData initialIndexState pdfFile
      (UploadOutcome.transportError "Failed to upload FIRA file: Network error") trivial⟩

end SkydoFira
